import Mathlib

/-!
Shallow embedding of the Query Understanding & Hybrid Data Resolution Engine
of `src/src/agents/agri_agent.py` (class `AgricultureAIAgent`), together with
theorems checking the natural-language specification against it.

Conventions of the embedding:
* Python strings are `String`; Python `needle in hay` is `strContains hay needle`.
* Optional Python arguments defaulting to `None` are `Option String`; Python
  truthiness tests (`if user_location:`) are `truthy`.
* Outbound calls (the remote price API, the CSV file on disk) are parameters:
  `none` models a failed call or a missing file, `some rows` a successful read.
* Floats appear only as the constant confidence `0.5`, modelled exactly as the
  rational `1/2`.
-/

namespace BhoomiSetu

/-- Python substring test on lists of characters: `needle` occurs contiguously
in `hay` (matches Python `needle in hay`, including the empty needle). -/
def isSubList (needle hay : List Char) : Bool :=
  match hay with
  | [] => needle.isEmpty
  | _ :: t => needle.isPrefixOf hay || isSubList needle t

/-- Python `needle in hay` on strings. -/
def strContains (hay needle : String) : Bool :=
  isSubList needle.toList hay.toList

/-- Python `str.lower()` (the data involved is ASCII, where `Char.toLower`
agrees with Python).  Defined over the character list so that it reduces in
the kernel. -/
def pyLower (s : String) : String :=
  ⟨s.data.map Char.toLower⟩

/-- Python `str.strip()`: drop whitespace from both ends. -/
def pyTrim (s : String) : String :=
  ⟨((s.data.dropWhile Char.isWhitespace).reverse.dropWhile Char.isWhitespace).reverse⟩

/-- Python `str.title()` on the single lowercase words it is applied to:
upper-case the first character. -/
def pyTitle (s : String) : String :=
  match s.data with
  | [] => ⟨[]⟩
  | c :: rest => ⟨c.toUpper :: rest⟩

/-- Left-to-right scan computing Python `s.split(sep)[-1]`: the suffix after
the last non-overlapping occurrence of `sep`, consuming matches from the
left as Python does.  `fuel` bounds the recursion by the input length. -/
def lastSegAux (sep : List Char) : Nat → List Char → List Char → List Char
  | 0, _, cand => cand
  | _ + 1, [], cand => cand
  | fuel + 1, c :: rest, cand =>
    if sep.isPrefixOf (c :: rest) then
      let after := (c :: rest).drop sep.length
      lastSegAux sep fuel after after
    else lastSegAux sep fuel rest cand

/-- Python `s.split(sep)[-1]` for a nonempty separator. -/
def pyLastSegmentAfter (sep s : String) : String :=
  ⟨lastSegAux sep.data s.data.length s.data s.data⟩

/-- Python `int(s)` on the digit strings of the dataset (`0` on anything
else); mirrors `String.toNat?` but reduces in the kernel. -/
def pyParseNat (s : String) : Nat :=
  if !s.data.isEmpty && s.data.all Char.isDigit then
    s.data.foldl (fun n c => n * 10 + (c.toNat - '0'.toNat)) 0
  else 0

/-- Python truthiness of an optional string (`None` and `""` are falsy). -/
def truthy : Option String → Bool
  | some s => s != ""
  | none => false

/-- Python `a or b` on optional strings: the first operand when truthy,
otherwise the second. -/
def pyOr (a b : Option String) : Option String :=
  if truthy a then a else b

/-! ### Soil lookup (`_get_location_soil_mapping`, `get_soil_data_for_location`) -/

/-- The location→soil table of `_get_location_soil_mapping`, in the source's
insertion order (Python dicts preserve insertion order). -/
def location_soil_mapping : List (String × String) :=
  [("vijayawada", "black"), ("guntur", "black"), ("visakhapatnam", "red"),
   ("tirupati", "red"), ("nellore", "clayey"), ("kadapa", "red"),
   ("kurnool", "black"), ("anantapur", "red"), ("chittoor", "red"),
   ("east godavari", "clayey"), ("west godavari", "clayey"), ("krishna", "black"),
   ("prakasam", "sandy"), ("srikakulam", "red"), ("vizianagaram", "red"),
   ("hyderabad", "black"), ("warangal", "black"), ("nizamabad", "black"),
   ("karimnagar", "black"), ("khammam", "red"), ("mahbubnagar", "red"),
   ("rangareddy", "black"), ("medak", "black"), ("nalgonda", "black"),
   ("adilabad", "black"),
   ("bangalore", "red"), ("bengaluru", "red"), ("mysore", "red"),
   ("hubli", "black"), ("belgaum", "black"), ("mangalore", "red"),
   ("gulbarga", "black"), ("davangere", "red"), ("bellary", "red"),
   ("bijapur", "black"),
   ("chennai", "red"), ("coimbatore", "red"), ("madurai", "black"),
   ("salem", "red"), ("tirupur", "red"), ("erode", "red"), ("vellore", "red"),
   ("thanjavur", "clayey"), ("tiruchirappalli", "black"), ("kanyakumari", "red"),
   ("mumbai", "red"), ("pune", "black"), ("nagpur", "black"),
   ("aurangabad", "black"), ("solapur", "black"), ("nashik", "black"),
   ("kolhapur", "red"), ("satara", "red"), ("sangli", "black"), ("latur", "black"),
   ("ahmedabad", "sandy"), ("surat", "black"), ("vadodara", "black"),
   ("rajkot", "black"), ("bhavnagar", "black"), ("gandhinagar", "sandy"),
   ("jaipur", "sandy"), ("jodhpur", "sandy"), ("udaipur", "red"),
   ("kota", "black"), ("bikaner", "sandy"), ("ajmer", "sandy"),
   ("lucknow", "loamy"), ("kanpur", "loamy"), ("agra", "loamy"),
   ("varanasi", "loamy"), ("meerut", "loamy"), ("allahabad", "loamy"),
   ("prayagraj", "loamy"),
   ("ludhiana", "loamy"), ("amritsar", "loamy"), ("jalandhar", "loamy"),
   ("patiala", "loamy"), ("bathinda", "loamy"),
   ("gurgaon", "loamy"), ("faridabad", "loamy"), ("panipat", "loamy"),
   ("ambala", "loamy"), ("karnal", "loamy"),
   ("delhi", "loamy"), ("new delhi", "loamy"), ("kolkata", "clayey"),
   ("bhubaneswar", "red"), ("patna", "loamy"), ("ranchi", "red"),
   ("guwahati", "red"), ("imphal", "red"), ("agartala", "clayey")]

/-- Result of the soil lookup. The `defaulted` field models the debug log line
that `get_soil_data_for_location` emits exactly on the not-found path
("Location not found in mapping, defaulting to black soil"); it is the lone
observable distinguishing a defaulted result from a table match. The
characteristics/crop fields of the Python dict are keyed off `soil_type`
against the startup-loaded soil dataset and play no role in the claims. -/
structure SoilResult where
  location : String
  soil_type : String
  defaulted : Bool
deriving Repr, DecidableEq

/-- The matching loop of `get_soil_data_for_location`: the first table entry
whose key is a substring of the cleaned input, or the cleaned input a
substring of the key (`loc in location_clean or location_clean in loc`). -/
def findFirstSoilEntry (location_clean : String) : Option (String × String) :=
  location_soil_mapping.find?
    (fun q => strContains location_clean q.1 || strContains q.1 location_clean)

/-- `get_soil_data_for_location` of the source: clean the input, scan the
table, default to `"black"` when nothing matched.  Python's `.title()` on the
single-word soil classes is `String.capitalize`. -/
def get_soil_data_for_location (location : String) : SoilResult :=
  let location_clean := pyTrim (pyLower location)
  match findFirstSoilEntry location_clean with
  | some p => { location := location, soil_type := pyTitle p.2, defaulted := false }
  | none => { location := location, soil_type := pyTitle "black", defaulted := true }

/-! ### Query classification (`classify_query_with_groq` fallback branch,
`classify_query`, tier structure of `classify_query_with_openai`) -/

/-- Classification record returned by every tier. -/
structure Classification where
  intent : String
  commodity : Option String
  location : Option String
  corrected_query : String
  confidence : ℚ
deriving Repr, DecidableEq

/-- Manual typo-correction table of the `classify_query_with_groq`
exception branch. -/
def location_corrections : List (String × String) :=
  [("banglore", "bangalore"), ("bangalor", "bangalore"), ("bangaluru", "bangalore"),
   ("deli", "delhi"), ("mumbay", "mumbai"), ("chenai", "chennai"),
   ("kolkatta", "kolkata"), ("hyderabd", "hyderabad"),
   ("vijayawda", "vijayawada"), ("vizag", "visakhapatnam")]

/-- Location extraction in the deterministic fallback: the part after the last
`" in "`, trimmed, run through the correction table. -/
def fallbackLocation (query_lower : String) : Option String :=
  if strContains query_lower " in " then
    let part := pyTrim (pyLastSegmentAfter " in " query_lower)
    some ((location_corrections.lookup part).getD part)
  else none

/-- The deterministic keyword fallback classifier: the dictionary returned by
the `except` branch of `classify_query_with_groq` (source lines 865-897). -/
def fallbackClassify (query : String) : Classification :=
  let query_lower := pyLower query
  { intent :=
      if ["price", "rate", "cost", "market"].any (fun w => strContains query_lower w) then
        "price"
      else if ["weather", "rain", "temperature"].any (fun w => strContains query_lower w) then
        "weather"
      else "general",
    commodity := none,
    location := fallbackLocation query_lower,
    corrected_query := query,
    confidence := 1/2 }

/-- Tiered classification: `classify_query_with_openai` falls back to
`classify_query_with_groq` on any failure, which falls back to the keyword
classifier on any failure.  `tier1`/`tier2` are the successfully parsed
replies of the two inference services (`none` models a failed call, a
timeout, or an unparseable reply). -/
def classifyWithTiers (tier1 tier2 : Option Classification) (query : String) :
    Classification :=
  match tier1 with
  | some c => c
  | none =>
    match tier2 with
    | some c => c
    | none => fallbackClassify query

/-- The standalone keyword classifier `classify_query` (source lines 1168-1185). -/
def classify_query (query : String) : String :=
  let query_lower := pyLower query
  if ["irrigate", "water", "irrigation", "watering"].any (fun w => strContains query_lower w) then
    "irrigation"
  else if ["seed", "variety", "crop", "plant", "sow"].any (fun w => strContains query_lower w) then
    "crop_selection"
  else if ["weather", "temperature", "rain", "climate"].any (fun w => strContains query_lower w) then
    "weather"
  else if ["price", "market", "sell", "cost", "profit"].any (fun w => strContains query_lower w) then
    "market"
  else if ["loan", "credit", "scheme", "subsidy", "finance", "money"].any (fun w => strContains query_lower w) then
    "finance"
  else if ["disease", "pest", "fungus", "insect", "spray"].any (fun w => strContains query_lower w) then
    "pest_disease"
  else "general"

/-! ### Price arbitration (`get_commodity_prices`, source lines 899-1166)

The claims exercise the direct-argument path (`original_query = None`), so the
Groq pre-classification step is not consulted.  The remote API call and the
local CSV file are parameters: `remote = none` models a failed request,
`csvFile = none` a missing or unreadable file. -/

/-- One market observation, with the columns of the price dataset. Prices are
kept as the strings read from the CSV, as the source does. -/
structure PriceRecord where
  state : String
  district : String
  market : String
  commodity : String
  variety : String
  grade : String
  arrival_date : String
  min_price : String
  max_price : String
  modal_price : String
deriving Repr, DecidableEq

/-- The hand-curated city → (state, city) map of step 2. -/
def location_mapping : List (String × String × String) :=
  [("bangalore", "Karnataka", "Bangalore"), ("bengaluru", "Karnataka", "Bangalore"),
   ("delhi", "Delhi", "Delhi"), ("mumbai", "Maharashtra", "Mumbai"),
   ("kolkata", "West Bengal", "Kolkata"), ("chennai", "Tamil Nadu", "Chennai"),
   ("hyderabad", "Telangana", "Hyderabad"),
   ("vijayawada", "Andhra Pradesh", "Vijayawada"),
   ("visakhapatnam", "Andhra Pradesh", "Visakhapatnam"),
   ("guntur", "Andhra Pradesh", "Guntur"),
   ("tirupati", "Andhra Pradesh", "Tirupati")]

/-- Step 2: resolve the user location to a `(target_state, target_city)` pair,
when the lower-cased location is a key of `location_mapping`. -/
def resolveTarget (user_location : Option String) : Option (String × String) :=
  if truthy user_location then
    (location_mapping.find? (fun t => t.1 == pyLower (user_location.getD ""))).map
      (fun t => t.2)
  else none

/-- States with good live-API coverage (step 3 allow-list). -/
def api_states : List String :=
  ["Bihar", "Gujarat", "Haryana", "Jammu and Kashmir", "Kerala", "Uttarakhand"]

/-- The prefer-fallback deny-list of steps 3 and 5. -/
def prefer_fallback_states : List String :=
  ["Andhra Pradesh", "Telangana"]

/-- Step 3 gate: `not target_state or target_state in api_states or
(target_state and target_state not in ["Andhra Pradesh", "Telangana"])`. -/
def should_try_api (target_state : Option String) : Bool :=
  match target_state with
  | none => true
  | some s => api_states.contains s || !(prefer_fallback_states.contains s)

/-- Step 3 outcome: `api_result` is set only when the API was tried, the
request succeeded, and it returned at least one record. -/
def apiResult (target_state : Option String) (remote : Option (List PriceRecord)) :
    Option (List PriceRecord) :=
  if should_try_api target_state then
    match remote with
    | some recs => if recs.isEmpty then none else some recs
    | none => none
  else none

/-- Commodity synonym table of step 4. -/
def commodity_variations : List (String × List String) :=
  [("tomato", ["Tomato"]), ("onion", ["Onion"]), ("potato", ["Potato"]),
   ("rice", ["Paddy(Dhan)(Common)", "Rice"]), ("wheat", ["Wheat"]),
   ("cotton", ["Cotton"]), ("groundnut", ["Groundnut"]), ("maize", ["Maize"]),
   ("chilli", ["Dry Chillies", "Green Chilli"]), ("turmeric", ["Turmeric"]),
   ("banana", ["Banana"]), ("mango", ["Mango"]), ("coconut", ["Coconut"])]

/-- Search terms for a commodity: its synonym list, or the commodity itself. -/
def searchTerms (commodity : String) : List String :=
  (commodity_variations.lookup (pyLower commodity)).getD [commodity]

/-- Step 4 state filter: keep rows whose `State` contains the target state,
case-insensitively (both the pandas and the csv-module paths do this). -/
def stateFilter (target_state : Option String) (rows : List PriceRecord) :
    List PriceRecord :=
  match target_state with
  | some t => rows.filter (fun r => strContains (pyLower r.state) (pyLower t))
  | none => rows

/-- Step 4 commodity filter: keep rows whose `Commodity` contains one of the
search terms, case-insensitively.  (This is the csv-module semantics; the
pandas path joins the terms into a regex, which differs only for the
parenthesised synonym `Paddy(Dhan)(Common)`, immaterial to the claims.) -/
def commodityFilter (commodity : Option String) (rows : List PriceRecord) :
    List PriceRecord :=
  if truthy commodity then
    rows.filter (fun r =>
      (searchTerms (commodity.getD "")).any
        (fun t => strContains (pyLower r.commodity) (pyLower t)))
  else rows

/-- The relevance scorer `location_score` defined inside `get_commodity_prices`
(source lines 1099-1122), transcribed as the same sequence of additions. -/
def location_score (target_city user_location : Option String) (r : PriceRecord) :
    Nat :=
  let market := pyLower r.market
  let district := pyLower r.district
  let state := pyLower r.state
  let score := 0
  let score := score +
    (if truthy target_city && strContains market (pyLower (target_city.getD "")) then
       50000
     else if truthy target_city && strContains district (pyLower (target_city.getD "")) then
       30000
     else if truthy user_location && strContains market (pyLower (user_location.getD "")) then
       40000
     else if truthy user_location && strContains district (pyLower (user_location.getD "")) then
       25000
     else 0)
  let score := score +
    (if truthy user_location &&
        (["vijayawada", "guntur", "tirupati"].contains (pyLower (user_location.getD ""))) then
       (if strContains state "andhra pradesh" then 20000
        else if strContains state "telangana" then 15000
        else 0)
     else 0)
  score

/-- The exact-location component of `location_score` (the first `if`/`elif`
chain), as a standalone bonus. -/
def locationBonus (target_city user_location : Option String) (r : PriceRecord) :
    Nat :=
  if truthy target_city && strContains (pyLower r.market) (pyLower (target_city.getD "")) then
    50000
  else if truthy target_city && strContains (pyLower r.district) (pyLower (target_city.getD "")) then
    30000
  else if truthy user_location && strContains (pyLower r.market) (pyLower (user_location.getD "")) then
    40000
  else if truthy user_location && strContains (pyLower r.district) (pyLower (user_location.getD "")) then
    25000
  else 0

/-- The home-region affinity component of `location_score` (the AP/Telangana
bonus for requesters in Vijayawada, Guntur or Tirupati). -/
def affinityBonus (user_location : Option String) (r : PriceRecord) : Nat :=
  if truthy user_location &&
      (["vijayawada", "guntur", "tirupati"].contains (pyLower (user_location.getD ""))) then
    (if strContains (pyLower r.state) "andhra pradesh" then 20000
     else if strContains (pyLower r.state) "telangana" then 15000
     else 0)
  else 0

/-- Descending-by-score order used to model
`csv_records.sort(key=location_score, reverse=True)`. -/
def scoreDescRel (target_city user_location : Option String) (a b : PriceRecord) :
    Prop :=
  location_score target_city user_location b ≤ location_score target_city user_location a

instance instDecScoreDescRel (tc ul : Option String) : DecidableRel (scoreDescRel tc ul) :=
  fun a b => Nat.decLe (location_score tc ul b) (location_score tc ul a)

instance instTotalScoreDescRel (tc ul : Option String) :
    IsTotal PriceRecord (scoreDescRel tc ul) :=
  ⟨fun x y => le_total (location_score tc ul y) (location_score tc ul x)⟩

instance instTransScoreDescRel (tc ul : Option String) :
    IsTrans PriceRecord (scoreDescRel tc ul) :=
  ⟨fun _ _ _ hab hbc => le_trans hbc hab⟩

/-- Python's `list.sort(key=..., reverse=True)` is a stable descending sort; a
stable insertion sort under `scoreDescRel` computes the same ordering. The
source sorts only when `user_location or target_city` is truthy. -/
def sortIfLocated (target_city user_location : Option String)
    (rows : List PriceRecord) : List PriceRecord :=
  if truthy user_location || truthy target_city then
    List.insertionSort (scoreDescRel target_city user_location) rows
  else rows

/-- Step 4 in full: filter the CSV rows by state and commodity, and when any
survive, sort them by relevance.  `none` when the file is missing or nothing
matched (the source leaves `csv_result = None` in both cases). -/
def csvResult (commodity user_location : Option String)
    (target : Option (String × String)) (csvFile : Option (List PriceRecord)) :
    Option (List PriceRecord) :=
  match csvFile with
  | none => none
  | some rows =>
    let filtered := commodityFilter commodity (stateFilter (target.map Prod.fst) rows)
    if filtered.isEmpty then none
    else some (sortIfLocated (target.map Prod.snd) user_location filtered)

/-- The "no data" message of step 5:
`f"No price data found for {commodity or 'requested commodity'}"` plus the
`" in {target_state or user_location}"` suffix when either is truthy. -/
def noDataMessage (commodity user_location target_state : Option String) : String :=
  "No price data found for " ++
    (if truthy commodity then commodity.getD "" else "requested commodity") ++
    (if truthy target_state then " in " ++ target_state.getD ""
     else if truthy user_location then " in " ++ user_location.getD ""
     else "")

/-- Final output of `get_commodity_prices` on the non-exceptional paths:
`{"status": "success", "data": ..., "count": ..., "source": ..., "message"?}`. -/
structure PriceResult where
  data : List PriceRecord
  count : Nat
  source : String
  message : Option String
deriving Repr, DecidableEq

/-- A successful result dict: `count` is always `len(data)`. -/
def mkResult (data : List PriceRecord) (source : String) : PriceResult :=
  { data := data, count := data.length, source := source, message := none }

/-- Steps 2-5 of `get_commodity_prices` (`resolvePrices` of the spec): resolve
the target, try the API when allowed, always process the CSV, then select:
prefer the CSV outright for deny-list states, else the API when it returned
rows, else the CSV, else an explicit empty result with a message. -/
def resolvePrices (commodity user_location : Option String)
    (remote csvFile : Option (List PriceRecord)) : PriceResult :=
  let target := resolveTarget user_location
  let target_state := target.map Prod.fst
  let api := apiResult target_state remote
  let csv := csvResult commodity user_location target csvFile
  if (target_state.any (fun t => prefer_fallback_states.contains t)) && csv.isSome then
    mkResult (csv.getD []) "csv"
  else if api.any (fun l => l.length > 0) then
    mkResult (api.getD []) "api"
  else if csv.any (fun l => l.length > 0) then
    mkResult (csv.getD []) "csv"
  else
    { data := [], count := 0, source := "none",
      message := some (noDataMessage commodity user_location target_state) }

/-! ### The manual-CSV scorer (`_parse_csv_manually`, source lines 597-646) -/

/-- Priority list attached to each record as `_state_priority`. -/
def priority_states : List String :=
  ["Andhra Pradesh", "Telangana", "Karnataka", "Tamil Nadu", "Kerala"]

/-- `priority_states.index(state)` when present, else `99`. -/
def state_priority (state : String) : Nat :=
  match priority_states.findIdx? (fun s => s == state) with
  | some i => i
  | none => 99

/-- The relevance scorer `location_score` defined inside `_parse_csv_manually`
(source lines 613-644), transcribed as the same sequence of additions.  The
score is an `Int`: the state-priority term is negative for states outside the
priority list. -/
def manual_location_score (user_location : String) (r : PriceRecord) : Int :=
  let state := pyLower r.state
  let market := pyLower r.market
  let district := pyLower r.district
  let score : Int := 0
  let score := score + (10 - (state_priority r.state : Int)) * 10000
  let score := score +
    (if r.arrival_date != "" && strContains r.arrival_date "05/08/2025" then 5000 else 0)
  let score := score +
    (if pyLower user_location == "vijayawada" then
       (if strContains state "andhra pradesh" then 20000 else 0) +
       (if strContains district "krishna" then 15000
        else if ["guntur", "west godavari", "east godavari"].any
            (fun n => strContains district n) then 10000
        else 0)
     else 0)
  let score := score +
    (if user_location != "" && strContains market (pyLower user_location) then 12000
     else if user_location != "" && strContains district (pyLower user_location) then 8000
     else 0)
  score

/-- State-priority term of the manual scorer. -/
def manualStateTerm (r : PriceRecord) : Int :=
  (10 - (state_priority r.state : Int)) * 10000

/-- Freshness term of the manual scorer (a fixed literal date). -/
def manualFreshTerm (r : PriceRecord) : Int :=
  if r.arrival_date != "" && strContains r.arrival_date "05/08/2025" then 5000 else 0

/-- Home-region affinity term of the manual scorer (Vijayawada users only). -/
def manualAffinityTerm (user_location : String) (r : PriceRecord) : Int :=
  if pyLower user_location == "vijayawada" then
    (if strContains (pyLower r.state) "andhra pradesh" then 20000 else 0) +
    (if strContains (pyLower r.district) "krishna" then 15000
     else if ["guntur", "west godavari", "east godavari"].any
         (fun n => strContains (pyLower r.district) n) then 10000
     else 0)
  else 0

/-- Market/district match term of the manual scorer. -/
def manualMarketTerm (user_location : String) (r : PriceRecord) : Int :=
  if user_location != "" && strContains (pyLower r.market) (pyLower user_location) then 12000
  else if user_location != "" && strContains (pyLower r.district) (pyLower user_location) then 8000
  else 0

/-! ### The location slice of `process_query` (source lines 1216-1244) -/

/-- `effective_location = location or ai_location or user_context.get("location")`. -/
def effectiveLocation (location ai_location ctx_location : Option String) :
    Option String :=
  pyOr location (pyOr ai_location ctx_location)

/-- The location `process_query` actually fetches weather and soil context
for: the effective location when truthy, otherwise the hardcoded fallback
`"Vijayawada"` (source lines 1225-1244). -/
def context_fetch_location (effective_location : Option String) : String :=
  if truthy effective_location then effective_location.getD "" else "Vijayawada"

/-! ### Auxiliary notions used by the theorems -/

/-- Numeric value of the modal-price column (used only to state the spec's
claimed "modal price ascending" tie-break). -/
def modalValue (r : PriceRecord) : Nat :=
  pyParseNat r.modal_price

/-- The ordering the spec claims for `RankedResult`: descending score, ties by
the state-priority list, then modal price ascending. -/
def claimedTieOrder (target_city user_location : Option String)
    (a b : PriceRecord) : Prop :=
  location_score target_city user_location b < location_score target_city user_location a ∨
  (location_score target_city user_location b = location_score target_city user_location a ∧
    (state_priority a.state < state_priority b.state ∨
     (state_priority a.state = state_priority b.state ∧ modalValue a ≤ modalValue b)))

instance instDecClaimedTieOrder (tc ul : Option String) :
    DecidableRel (claimedTieOrder tc ul) := fun _ _ => by
  unfold claimedTieOrder; exact inferInstance

/-- `Pairwise` holds of any list when the relation is universally true. -/
theorem pairwise_of_rel_all {α : Type} {R : α → α → Prop} (h : ∀ a b, R a b) :
    ∀ l : List α, l.Pairwise R
  | [] => List.Pairwise.nil
  | x :: xs => List.Pairwise.cons (fun y _ => h x y) (pairwise_of_rel_all h xs)

/-- When neither a target city nor a truthy user location is present, every
record scores zero. -/
theorem location_score_eq_zero_of_unlocated (tc ul : Option String)
    (h1 : truthy tc = false) (h2 : truthy ul = false) (r : PriceRecord) :
    location_score tc ul r = 0 := by
  simp [location_score, h1, h2]

/-! ### Claim theorems -/

/-- C3 counterexample: with both inference tiers failing on the query
`"tomato price"`, the classification is intent `"price"` with confidence
`0.5`, not intent `"general"` with zero confidence as the claim states. -/
theorem tiers_fail_counterexample :
    ¬ ((classifyWithTiers none none "tomato price").intent = "general" ∧
       (classifyWithTiers none none "tomato price").confidence = 0) := by
  decide

/-- C3 (amended): when every inference tier fails, classification still always
produces a result, namely the deterministic keyword fallback: its confidence
is the fixed constant `0.5` (never zero), its intent is one of
`price`/`weather`/`general`, and the intent is `"general"` exactly in the case
that no keyword list matched. -/
theorem tiers_always_produce_classification (q : String) :
    classifyWithTiers none none q = fallbackClassify q ∧
    (fallbackClassify q).confidence = 1/2 ∧
    ((fallbackClassify q).intent = "price" ∨ (fallbackClassify q).intent = "weather" ∨
      (fallbackClassify q).intent = "general") ∧
    ((["price", "rate", "cost", "market", "weather", "rain", "temperature"].all
        (fun w => !(strContains (pyLower q) w))) = true →
      (fallbackClassify q).intent = "general") := by
  refine ⟨rfl, rfl, ?_, ?_⟩
  · simp only [fallbackClassify]
    split
    · exact Or.inl rfl
    · split
      · exact Or.inr (Or.inl rfl)
      · exact Or.inr (Or.inr rfl)
  · intro hall
    simp only [List.all_cons, List.all_nil, Bool.and_eq_true, Bool.not_eq_true'] at hall
    obtain ⟨h1, h2, h3, h4, h5, h6, h7⟩ := hall
    simp [fallbackClassify, List.any_cons, List.any_nil, h1, h2, h3, h4, h5, h6, h7]

/-- C3 witness: the amended theorem applied to a keyword-free query. -/
theorem tiers_always_produce_classification_witness :
    (["price", "rate", "cost", "market", "weather", "rain", "temperature"].all
        (fun w => !(strContains (pyLower "hello namaste") w))) = true ∧
    (fallbackClassify "hello namaste").intent = "general" :=
  ⟨by decide, (tiers_always_produce_classification "hello namaste").2.2.2 (by decide)⟩

/-- C4: for every place not matched by any entry of the location→soil table,
the lookup returns the fixed default class (`"black"`, title-cased `"Black"`)
and the defaulted flag (which models the debug log emitted only on that path)
is set; conversely the flag is set only on the default path, so a defaulted
result is always distinguishable from a real table match.  The lookup is a
total function, so it never fails. -/
theorem soil_default_flagged (loc : String)
    (h : findFirstSoilEntry (pyTrim (pyLower loc)) = none) :
    get_soil_data_for_location loc =
      { location := loc, soil_type := "Black", defaulted := true } ∧
    ∀ l : String, ((get_soil_data_for_location l).defaulted = true ↔
      findFirstSoilEntry (pyTrim (pyLower l)) = none) := by
  constructor
  · have hb : pyTitle "black" = "Black" := by decide
    simp [get_soil_data_for_location, h, hb]
  · intro l
    unfold get_soil_data_for_location
    cases hfind : findFirstSoilEntry (pyTrim (pyLower l)) <;> simp [hfind]

/-- C4 witness: `"atlantis"` matches no table entry and yields the flagged
default. -/
theorem soil_default_flagged_witness :
    get_soil_data_for_location "atlantis" =
      { location := "atlantis", soil_type := "Black", defaulted := true } :=
  (soil_default_flagged "atlantis" (by decide)).1

/-- C10: whenever some table entry matches the cleaned input under the
substring-either-way rule, the lookup returns the first such entry's soil
type as a real (non-defaulted) match; in particular the non-place input
`"a"` matches the first key `"vijayawada"` and yields `"Black"` soil as a
real match instead of the default. -/
theorem soil_substring_first_match (loc : String) (p : String × String)
    (h : findFirstSoilEntry (pyTrim (pyLower loc)) = some p) :
    get_soil_data_for_location loc =
      { location := loc, soil_type := pyTitle p.2, defaulted := false } ∧
    get_soil_data_for_location "a" =
      { location := "a", soil_type := "Black", defaulted := false } := by
  constructor
  · simp [get_soil_data_for_location, h]
  · decide

/-- C10 witness: the theorem applied at input `"a"`, whose first matching
entry is `("vijayawada", "black")`. -/
theorem soil_substring_first_match_witness :
    get_soil_data_for_location "a" =
      { location := "a", soil_type := pyTitle "black",
        defaulted := false } :=
  (soil_substring_first_match "a" ("vijayawada", "black") (by decide)).1

/-- C5 counterexample: for `"weather here"` with no prior known location the
classifier's place is indeed explicitly null, but the pipeline then invents
the substitute location `"Vijayawada"` (a nonempty place name) for weather
and soil context, contradicting the claim that no substitute location is
invented by the engine. -/
theorem weather_here_substitution_counterexample :
    (fallbackClassify "weather here").location = none ∧
    context_fetch_location
        (effectiveLocation none (fallbackClassify "weather here").location none) =
      "Vijayawada" ∧
    ("Vijayawada" : String) ≠ "" := by
  refine ⟨by decide, by decide, by decide⟩

/-- C5 (amended): for `"weather here"` the classifier extracts no place
(place explicitly null, not guessed), but `process_query` does not surface an
unresolved location: whenever no context location is known either, it
substitutes the hardcoded fallback `"Vijayawada"` for weather and soil
context. -/
theorem weather_here_place_null_but_vijayawada_substituted
    (ctx : Option String) (h : truthy ctx = false) :
    (fallbackClassify "weather here").location = none ∧
    (fallbackClassify "weather here").intent = "weather" ∧
    context_fetch_location
        (effectiveLocation none (fallbackClassify "weather here").location ctx) =
      "Vijayawada" := by
  refine ⟨by decide, by decide, ?_⟩
  have hl : (fallbackClassify "weather here").location = none := by decide
  have hnone : truthy (none : Option String) = false := rfl
  simp [hl, effectiveLocation, pyOr, hnone, context_fetch_location, h]

/-- C5 witness: the amended theorem with an absent context location. -/
theorem weather_here_place_null_but_vijayawada_substituted_witness :
    truthy none = false ∧
    context_fetch_location
        (effectiveLocation none (fallbackClassify "weather here").location none) =
      "Vijayawada" :=
  ⟨rfl, (weather_here_place_null_but_vijayawada_substituted none rfl).2.2⟩

/-- C8: the deterministic keyword fallback always returns exactly one intent
from its fixed enumeration; the price-keyword test has highest precedence, so
a query containing "price", "rate" or "market" is classified `"price"` even
when other keyword sets also match; and the standalone `classify_query`
likewise returns exactly one value of its fixed seven-intent enumeration. -/
theorem keyword_classifier_exactly_one_intent (q : String) :
    ((fallbackClassify q).intent = "price" ∨ (fallbackClassify q).intent = "weather" ∨
      (fallbackClassify q).intent = "general") ∧
    ((strContains (pyLower q) "price" || strContains (pyLower q) "rate" ||
        strContains (pyLower q) "market") = true →
      (fallbackClassify q).intent = "price") ∧
    (classify_query q = "irrigation" ∨ classify_query q = "crop_selection" ∨
      classify_query q = "weather" ∨ classify_query q = "market" ∨
      classify_query q = "finance" ∨ classify_query q = "pest_disease" ∨
      classify_query q = "general") := by
  refine ⟨?_, ?_, ?_⟩
  · exact (tiers_always_produce_classification q).2.2.1
  · intro h
    have hc : (["price", "rate", "cost", "market"].any
        (fun w => strContains (pyLower q) w)) = true := by
      simp only [List.any_cons, List.any_nil, Bool.or_eq_true] at *
      tauto
    simp [fallbackClassify, hc]
  · simp only [classify_query]
    split
    · exact Or.inl rfl
    · split
      · exact Or.inr (Or.inl rfl)
      · split
        · exact Or.inr (Or.inr (Or.inl rfl))
        · split
          · exact Or.inr (Or.inr (Or.inr (Or.inl rfl)))
          · split
            · exact Or.inr (Or.inr (Or.inr (Or.inr (Or.inl rfl))))
            · split
              · exact Or.inr (Or.inr (Or.inr (Or.inr (Or.inr (Or.inl rfl)))))
              · exact Or.inr (Or.inr (Or.inr (Or.inr (Or.inr (Or.inr rfl)))))

/-- C8 witness: a query matching both the price and the weather keyword sets
is still classified `"price"` (single intent, fixed precedence). -/
theorem keyword_classifier_exactly_one_intent_witness :
    (strContains (pyLower "market rate during rain") "price" ||
      strContains (pyLower "market rate during rain") "rate" ||
      strContains (pyLower "market rate during rain") "market") = true ∧
    (fallbackClassify "market rate during rain").intent = "price" :=
  ⟨by decide,
    (keyword_classifier_exactly_one_intent "market rate during rain").2.1 (by decide)⟩

/-- C9: for a fixed commodity, requester location, and fixed snapshot of the
remote reply and the fallback CSV, two calls of `resolvePrices` with
identical inputs produce identical results, including identical record
ordering (the whole pipeline is a pure function of its inputs). -/
theorem resolvePrices_deterministic (c c' ul ul' : Option String)
    (remote remote' csvFile csvFile' : Option (List PriceRecord))
    (h1 : c = c') (h2 : ul = ul') (h3 : remote = remote') (h4 : csvFile = csvFile') :
    resolvePrices c ul remote csvFile = resolvePrices c' ul' remote' csvFile' := by
  subst h1; subst h2; subst h3; subst h4; rfl

/-- C9 witness: the determinism theorem at a concrete repeated call. -/
theorem resolvePrices_deterministic_witness :
    resolvePrices (some "tomato") (some "vijayawada") none
        (some [⟨"Andhra Pradesh", "Krishna", "Vijayawada", "Tomato", "Local", "FAQ",
               "05/08/2025", "500", "800", "650"⟩]) =
      resolvePrices (some "tomato") (some "vijayawada") none
        (some [⟨"Andhra Pradesh", "Krishna", "Vijayawada", "Tomato", "Local", "FAQ",
               "05/08/2025", "500", "800", "650"⟩]) :=
  resolvePrices_deterministic _ _ _ _ _ _ _ _ rfl rfl rfl rfl

/-- C1: whenever the resolved region is on the prefer-fallback deny-list
(Andhra Pradesh or Telangana) and the fallback CSV pipeline produced at least
one row, `resolvePrices` returns exactly the fallback rows with provenance
`"csv"`, for every possible live-source outcome — including a live source
that also returned data. -/
theorem prefer_fallback_overrides_live (c ul : Option String)
    (remote csvFile : Option (List PriceRecord)) (ts tc : String)
    (rows : List PriceRecord)
    (hres : resolveTarget ul = some (ts, tc))
    (hdeny : prefer_fallback_states.contains ts = true)
    (hcsv : csvResult c ul (resolveTarget ul) csvFile = some rows) :
    resolvePrices c ul remote csvFile = mkResult rows "csv" := by
  rw [hres] at hcsv
  have hmem : ts ∈ prefer_fallback_states := by simpa using hdeny
  unfold resolvePrices
  simp [hres, hcsv, hmem]

/-- C1 witness: a Vijayawada request whose CSV has a matching row while the
live source also returned a (different) row still yields the CSV row with
provenance `"csv"`. -/
theorem prefer_fallback_overrides_live_witness :
    resolvePrices none (some "vijayawada")
        (some [⟨"Bihar", "Patna", "Patna Market", "Tomato", "Local", "FAQ",
               "05/08/2025", "400", "700", "550"⟩])
        (some [⟨"Andhra Pradesh", "Krishna", "Vijayawada", "Tomato", "Local", "FAQ",
               "05/08/2025", "500", "800", "650"⟩]) =
      mkResult [⟨"Andhra Pradesh", "Krishna", "Vijayawada", "Tomato", "Local", "FAQ",
                "05/08/2025", "500", "800", "650"⟩] "csv" :=
  prefer_fallback_overrides_live none (some "vijayawada") _ _
    "Andhra Pradesh" "Vijayawada" _ (by decide) (by decide) (by decide)

/-- C6: when the live pipeline and the fallback pipeline both end with zero
rows, `resolvePrices` returns the explicit empty result with provenance
`"none"`, carrying the human-readable (nonempty) "No price data found"
message, rather than an error value. -/
theorem no_data_explicit_empty_result (c ul : Option String)
    (remote csvFile : Option (List PriceRecord))
    (hapi : apiResult ((resolveTarget ul).map Prod.fst) remote = none)
    (hcsv : csvResult c ul (resolveTarget ul) csvFile = none) :
    resolvePrices c ul remote csvFile =
      { data := [], count := 0, source := "none",
        message := some (noDataMessage c ul ((resolveTarget ul).map Prod.fst)) } ∧
    noDataMessage c ul ((resolveTarget ul).map Prod.fst) ≠ "" := by
  constructor
  · unfold resolvePrices
    simp [hapi, hcsv]
  · intro hmsg
    have hlen := congrArg String.length hmsg
    rw [noDataMessage] at hlen
    have h24 : ("No price data found for " : String).length = 24 := rfl
    have h0 : ("" : String).length = 0 := rfl
    simp only [String.length_append, h24, h0] at hlen
    omega

/-- C6 witness: a Mumbai tomato request with a failed live call and an empty
CSV yields the explicit empty result and its descriptive message. -/
theorem no_data_explicit_empty_result_witness :
    resolvePrices (some "tomato") (some "mumbai") none (some []) =
      { data := [], count := 0, source := "none",
        message := some (noDataMessage (some "tomato") (some "mumbai")
          ((resolveTarget (some "mumbai")).map Prod.fst)) } ∧
    noDataMessage (some "tomato") (some "mumbai")
        ((resolveTarget (some "mumbai")).map Prod.fst) =
      "No price data found for tomato in Maharashtra" :=
  ⟨(no_data_explicit_empty_result (some "tomato") (some "mumbai") none (some [])
      (by decide) (by decide)).1,
   by decide⟩

/-- C7 counterexample: in the manual-CSV scorer, a record with an exact
market-name match for the requester (`"vijayawada"` occurs in its market
name) scores strictly lower than a record with no market or district match at
all, because the home-district affinity bonus (15000) exceeds the exact
market-name bonus (12000); and the primary scorer awards no freshness bonus:
a record's score is unchanged by its observation date. -/
theorem score_bonus_order_counterexample :
    strContains (pyLower "vijayawada central") "vijayawada" = true ∧
    strContains (pyLower "nuzvid market") "vijayawada" = false ∧
    strContains (pyLower "nellore") "vijayawada" = false ∧
    manual_location_score "vijayawada"
        ⟨"Andhra Pradesh", "nellore", "vijayawada central", "Tomato", "", "", "",
         "", "", "650"⟩ <
      manual_location_score "vijayawada"
        ⟨"Andhra Pradesh", "krishna", "nuzvid market", "Tomato", "", "", "",
         "", "", "650"⟩ ∧
    location_score (some "Bangalore") (some "bangalore")
        ⟨"Karnataka", "bangalore rural", "kolar market", "Tomato", "", "",
         "05/08/2025", "", "", "650"⟩ =
      location_score (some "Bangalore") (some "bangalore")
        ⟨"Karnataka", "bangalore rural", "kolar market", "Tomato", "", "",
         "01/01/1999", "", "", "650"⟩ := by
  refine ⟨by decide, by decide, by decide, by decide, by decide⟩

/-- C7 (amended): each record's relevance score is a sum of additive bonus
terms in both scorers.  In the primary scorer the exact-location component
(market 50000/40000 over district 30000/25000) always dominates the
home-region affinity component (at most 20000), and there is no freshness
term at all (the score ignores the observation date).  In the manual-CSV
scorer the additive terms are state priority, freshness (at most 5000),
home-region affinity, and market/district match (at most 12000); there the
affinity and state-priority terms can exceed the exact market-name bonus, so
the claimed global ordering does not hold. -/
theorem score_additive_bonuses (tc ul : Option String) (u : String)
    (r : PriceRecord) (d : String) :
    location_score tc ul r = locationBonus tc ul r + affinityBonus ul r ∧
    manual_location_score u r =
      manualStateTerm r + manualFreshTerm r + manualAffinityTerm u r +
        manualMarketTerm u r ∧
    affinityBonus ul r ≤ 20000 ∧
    locationBonus tc ul r ≤ 50000 ∧
    manualMarketTerm u r ≤ 12000 ∧
    manualFreshTerm r ≤ 5000 ∧
    location_score tc ul { r with arrival_date := d } = location_score tc ul r := by
  refine ⟨?_, ?_, ?_, ?_, ?_, ?_, rfl⟩
  · simp [location_score, locationBonus, affinityBonus]
  · simp only [manual_location_score, manualStateTerm, manualFreshTerm,
      manualAffinityTerm, manualMarketTerm]
    ring
  · unfold affinityBonus
    repeat' split
    all_goals omega
  · unfold locationBonus
    repeat' split
    all_goals omega
  · unfold manualMarketTerm
    repeat' split
    all_goals omega
  · unfold manualFreshTerm
    repeat' split
    all_goals omega

/-- Any list produced by the CSV pipeline is sorted non-increasingly by
relevance score: either the stable insertion sort ran, or no location was
truthy and every record scores zero. -/
theorem csvResult_pairwise (c ul : Option String) (target : Option (String × String))
    (csvFile : Option (List PriceRecord)) (rows : List PriceRecord)
    (h : csvResult c ul target csvFile = some rows) :
    rows.Pairwise (scoreDescRel (target.map Prod.snd) ul) := by
  unfold csvResult at h
  cases csvFile with
  | none => cases h
  | some file =>
    simp only at h
    split at h
    · cases h
    · injection h with h
      subst h
      unfold sortIfLocated
      split
      · exact List.sorted_insertionSort _ _
      · rename_i hcond
        rw [Bool.or_eq_true, not_or] at hcond
        obtain ⟨hul, htc⟩ := hcond
        apply pairwise_of_rel_all
        intro a b
        unfold scoreDescRel
        rw [location_score_eq_zero_of_unlocated _ _ (Bool.not_eq_true _ ▸ htc)
              (Bool.not_eq_true _ ▸ hul),
            location_score_eq_zero_of_unlocated _ _ (Bool.not_eq_true _ ▸ htc)
              (Bool.not_eq_true _ ▸ hul)]

/-- When `resolvePrices` returns a CSV-sourced result, its data came from the
CSV pipeline. -/
theorem resolvePrices_csv_data (c ul : Option String)
    (remote csvFile : Option (List PriceRecord))
    (h : (resolvePrices c ul remote csvFile).source = "csv") :
    csvResult c ul (resolveTarget ul) csvFile =
      some (resolvePrices c ul remote csvFile).data := by
  unfold resolvePrices at h ⊢
  by_cases h1 : (Option.any (fun t => prefer_fallback_states.contains t)
      (Option.map Prod.fst (resolveTarget ul)) &&
      (csvResult c ul (resolveTarget ul) csvFile).isSome) = true
  · rw [if_pos h1] at h ⊢
    have h2 := ((Bool.and_eq_true _ _).mp h1).2
    cases hcsv : csvResult c ul (resolveTarget ul) csvFile with
    | none => rw [hcsv] at h2; cases h2
    | some rows => simp [mkResult]
  · rw [if_neg h1] at h ⊢
    by_cases h2 : (Option.any (fun l => decide (l.length > 0))
        (apiResult (Option.map Prod.fst (resolveTarget ul)) remote)) = true
    · rw [if_pos h2] at h
      simp [mkResult] at h
    · rw [if_neg h2] at h ⊢
      by_cases h3 : (Option.any (fun l => decide (l.length > 0))
          (csvResult c ul (resolveTarget ul) csvFile)) = true
      · rw [if_pos h3] at h ⊢
        cases hcsv : csvResult c ul (resolveTarget ul) csvFile with
        | none => rw [hcsv] at h3; cases h3
        | some rows => simp [mkResult]
      · rw [if_neg h3] at h
        simp at h

/-- C2 counterexample: two concrete lookups refute the claimed ordering.  For
a requester in `"goa"`, two CSV rows tie at score zero but are returned in
dataset order, with the Kerala row (state priority 4, modal price 80) before
the Andhra Pradesh row (state priority 0, modal price 30) — violating both
claimed tie-breaks; and an API-sourced result is returned in remote order
even when a later record scores strictly higher than an earlier one. -/
theorem ranked_tiebreak_counterexample :
    (resolvePrices none (some "goa") none
        (some [⟨"Kerala", "k1", "m1", "Onion", "", "", "", "", "", "80"⟩,
               ⟨"Andhra Pradesh", "k2", "m2", "Onion", "", "", "", "", "", "30"⟩])).data =
      [⟨"Kerala", "k1", "m1", "Onion", "", "", "", "", "", "80"⟩,
       ⟨"Andhra Pradesh", "k2", "m2", "Onion", "", "", "", "", "", "30"⟩] ∧
    ¬ claimedTieOrder none (some "goa")
        ⟨"Kerala", "k1", "m1", "Onion", "", "", "", "", "", "80"⟩
        ⟨"Andhra Pradesh", "k2", "m2", "Onion", "", "", "", "", "", "30"⟩ ∧
    (resolvePrices none (some "goa")
        (some [⟨"Kerala", "d", "m", "Onion", "", "", "", "", "", "10"⟩,
               ⟨"Kerala", "d", "goa bazaar", "Onion", "", "", "", "", "", "20"⟩])
        none).data =
      [⟨"Kerala", "d", "m", "Onion", "", "", "", "", "", "10"⟩,
       ⟨"Kerala", "d", "goa bazaar", "Onion", "", "", "", "", "", "20"⟩] ∧
    ¬ scoreDescRel none (some "goa")
        ⟨"Kerala", "d", "m", "Onion", "", "", "", "", "", "10"⟩
        ⟨"Kerala", "d", "goa bazaar", "Onion", "", "", "", "", "", "20"⟩ := by
  refine ⟨by decide, by decide, by decide, by decide⟩

/-- C2 (amended): every CSV-sourced (fallback) result of `resolvePrices` is
sorted non-increasingly by relevance score — no record with a strictly lower
score precedes one with a higher score.  No further tie-break is applied:
records with equal scores stay in dataset order, and API-sourced results keep
the remote order. -/
theorem ranked_result_sorted_by_score (c ul : Option String)
    (remote csvFile : Option (List PriceRecord))
    (h : (resolvePrices c ul remote csvFile).source = "csv") :
    (resolvePrices c ul remote csvFile).data.Pairwise
      (scoreDescRel ((resolveTarget ul).map Prod.snd) ul) :=
  csvResult_pairwise c ul (resolveTarget ul) csvFile _
    (resolvePrices_csv_data c ul remote csvFile h)

/-- C2 witness: the amended theorem at a concrete CSV-sourced lookup. -/
theorem ranked_result_sorted_by_score_witness :
    (resolvePrices none (some "chennai") none
        (some [⟨"Tamil Nadu", "chengalpattu", "market a", "Onion", "", "", "", "", "", "10"⟩,
               ⟨"Tamil Nadu", "chennai", "koyambedu", "Onion", "", "", "", "", "", "20"⟩])).source =
      "csv" ∧
    (resolvePrices none (some "chennai") none
        (some [⟨"Tamil Nadu", "chengalpattu", "market a", "Onion", "", "", "", "", "", "10"⟩,
               ⟨"Tamil Nadu", "chennai", "koyambedu", "Onion", "", "", "", "", "", "20"⟩])).data.Pairwise
      (scoreDescRel ((resolveTarget (some "chennai")).map Prod.snd) (some "chennai")) :=
  ⟨by decide,
   ranked_result_sorted_by_score none (some "chennai") none
     (some [⟨"Tamil Nadu", "chengalpattu", "market a", "Onion", "", "", "", "", "", "10"⟩,
            ⟨"Tamil Nadu", "chennai", "koyambedu", "Onion", "", "", "", "", "", "20"⟩])
     (by decide)⟩

end BhoomiSetu
